import Mathlib

/-!
Verification of the compression round-tripping repository.

The development shallowly embeds the two Python modules
`src/compression_round_tripping/main.py` and
`src/compression_round_tripping/run_benchmark_compression.py`.
Pure control flow is translated to Lean functions; filesystem state is
passed explicitly (an association list from paths to contents, or explicit
boolean existence flags); Python exceptions become `Except` errors; wall
clock readings and floating point quantities are modelled as exact
rationals.
-/

/-! ## Paths: the fragment of `pathlib.PurePath` the scripts use. -/

/-- A filesystem path, split into the parent components and the final
component (`Path.name` in Python). -/
structure PyPath where
  parentDirs : List String
  name : String
deriving DecidableEq, Repr

/-- Index of the last occurrence of a dot in a string (Python `str.rfind`),
or `none` when the string has no dot. -/
def lastIndexOfDot (s : String) : Option Nat :=
  (List.range s.length).foldl
    (fun acc i => if s.toList.getD i ' ' = '.' then some i else acc) none

/-- Python `PurePath.suffix` on a final component: the substring from the
last dot, provided that dot is neither the first nor the last character;
otherwise the empty string. -/
def pySuffix (s : String) : String :=
  match lastIndexOfDot s with
  | none => ""
  | some i => if 0 < i ∧ i + 1 < s.length then String.mk (s.toList.drop i) else ""

/-- Python `PurePath.stem` on a final component: the name with `pySuffix`
removed. -/
def pyStem (s : String) : String :=
  String.mk (s.toList.take (s.length - (pySuffix s).length))

/-- Python `PurePath.with_suffix`: replace the suffix of the final
component by the given new suffix. -/
def pyWithSuffix (p : PyPath) (suf : String) : PyPath :=
  { p with name := pyStem p.name ++ suf }

/-- Python `dir / child`: descend into a directory. -/
def pyChild (p : PyPath) (childName : String) : PyPath :=
  { parentDirs := p.parentDirs ++ [p.name], name := childName }

/-! ## Formats (`main.py`, lines 15-16). -/

/-- The closed enumeration `EligibleCompressionFormats = Literal["sog",
"spz", "cply"]` from `main.py` line 16. -/
inductive EligibleCompressionFormat
| sog
| spz
| cply
deriving DecidableEq, Repr

/-- The Python string literal naming each compression format. -/
def formatName : EligibleCompressionFormat → String
| .sog => "sog"
| .spz => "spz"
| .cply => "cply"

/-- `get_args(EligibleCompressionFormats)`, in declaration order
(`main.py` line 258). -/
def eligible_formats : List String := ["sog", "spz", "cply"]

/-! ## The statistics record (`main.py`, lines 19-53).

Floating point fields are modelled as exact rationals. -/

/-- The pydantic model `CompressionStatistics` from `main.py` lines 19-33. -/
structure CompressionStatistics where
  original_size_mb : ℚ
  compressed_size_mb : ℚ
  compression_ratio : ℚ
  compression_time_seconds : ℚ
  decompression_time_seconds : ℚ
  compression_format : String
  input_file : PyPath
  compressed_file : PyPath
  decompressed_file : PyPath
  cpu_name : String
  gpu_name : String
deriving DecidableEq, Repr

/-- Reads the ratio field of a statistics record. -/
def ratioField (s : CompressionStatistics) : ℚ := s.compression_ratio

/-- A JSON value sitting under one key of a statistics file.  The source
only ever asks one question of such a value: whether
`CompressionStatistics.model_validate` accepts it (`main.py` lines
263-267).  A value the validator accepts is `validated` and carries the
record it decodes to (a record freshly produced by `model_dump` decodes
back to itself: paths are serialized to absolute path strings and parsed
back, and every other field round-trips through JSON unchanged); any other
JSON value is `malformed` and carries an opaque tag. -/
inductive StatsValue
| validated (s : CompressionStatistics)
| malformed (tag : String)
deriving DecidableEq, Repr

/-- Whether `CompressionStatistics.model_validate` accepts the value. -/
def statsValueOk : StatsValue → Bool
| .validated _ => true
| .malformed _ => false

/-- The per-entry validity test of `main.py` lines 261-269: the key must be
a recognized compression format and the value must pass
`model_validate`. -/
def entryValid (p : String × StatsValue) : Bool :=
  decide (p.1 ∈ eligible_formats) && statsValueOk p.2

/-- State of the on-disk statistics file as the merge in `main.py` lines
247-284 observes it: missing, present but not decodable as JSON
(`json.JSONDecodeError`), present and decodable but not a JSON object, or
a JSON object given as its key/value pairs in order. -/
inductive StatsFileState
| absent
| unreadable
| parsedNonMapping
| parsed (entries : List (String × StatsValue))
deriving DecidableEq, Repr

/-- Errors the statistics merge can raise.  `corruptStatsFile` is the
`ValueError("Corrupted stats file: ...")` of `main.py` line 254,
`invalidStatsEntry` the `ValueError("Invalid statistic for key ...")` of
line 273, and `notAMapping` the `AttributeError` Python raises at line 261
when `json.load` produced a non-dict and `.items()` is called on it. -/
inductive MergeError
| corruptStatsFile
| invalidStatsEntry (key : String)
| notAMapping
deriving DecidableEq, Repr

/-- Python `d[k] = v` on an insertion-ordered mapping: replace the value in
place when the key is present, append otherwise. -/
def dictSet : List (String × StatsValue) → String → StatsValue →
    List (String × StatsValue)
| [], k, v => [(k, v)]
| q :: rest, k, v => if q.1 = k then (k, v) :: rest else q :: dictSet rest k v

/-- Python `d.get(k)` on an insertion-ordered mapping. -/
def dictGet (d : List (String × StatsValue)) (k : String) : Option StatsValue :=
  (d.find? (fun q => decide (q.1 = k))).map (fun q => q.2)

/-- The validation loop of `main.py` lines 258-277: in overwrite mode the
invalid entries are collected and deleted, otherwise the first invalid
entry aborts the merge. -/
def validateEntries (entries : List (String × StatsValue)) (overwrite : Bool) :
    Except MergeError (List (String × StatsValue)) :=
  if overwrite then .ok (entries.filter entryValid)
  else
    match entries.find? (fun q => !entryValid q) with
    | some q => .error (.invalidStatsEntry q.1)
    | none => .ok entries

/-- The statistics merge of `main.py` lines 247-280: load the existing
file if any (a decode failure is tolerated only in overwrite mode, a
decoded non-mapping crashes at `.items()`), validate the existing entries,
then unconditionally install the fresh record under its format key.
Returns the mapping that line 284 then writes back. -/
def mergeStatistics (state : StatsFileState) (fmt : EligibleCompressionFormat)
    (freshRecord : CompressionStatistics) (overwrite : Bool) :
    Except MergeError (List (String × StatsValue)) :=
  match state with
  | .absent => .ok (dictSet [] (formatName fmt) (.validated freshRecord))
  | .unreadable =>
      if overwrite then .ok (dictSet [] (formatName fmt) (.validated freshRecord))
      else .error .corruptStatsFile
  | .parsedNonMapping => .error .notAMapping
  | .parsed entries =>
      match validateEntries entries overwrite with
      | .error e => .error e
      | .ok kept => .ok (dictSet kept (formatName fmt) (.validated freshRecord))

/-- One full merge as a transition on the on-disk file: on success the
merged mapping is written back (`main.py` lines 283-284), on an exception
the write is never reached and the file keeps its previous state. -/
def mergeRun (state : StatsFileState) (fmt : EligibleCompressionFormat)
    (freshRecord : CompressionStatistics) (overwrite : Bool) :
    StatsFileState × Option MergeError :=
  match mergeStatistics state fmt freshRecord overwrite with
  | .ok d => (.parsed d, none)
  | .error e => (state, some e)

/-- Python `d.update(e)` on insertion-ordered mappings. -/
def pyDictUpdate (d e : List (String × StatsValue)) : List (String × StatsValue) :=
  e.foldl (fun acc q => dictSet acc q.1 q.2) d

/-- The Batch Driver's consolidation of the transient per-run statistics
file into the canonical per-scene `compression_stats.json`
(`run_benchmark_compression.py` lines 193-210): the canonical file is
loaded with `except Exception: pass`, so an undecodable canonical file is
silently replaced by an empty mapping regardless of the overwrite flag; a
decoded non-mapping crashes at `dict.update` before the write, leaving the
file as it was (the surrounding per-format `try` swallows the crash); the
generated entries are merged in with `dict.update` and the result written
back.  The overwrite flag of the enclosing `_process_scene` is never
consulted by these lines. -/
def consolidateSceneStats (canonical : StatsFileState)
    (generated : List (String × StatsValue)) : StatsFileState :=
  match canonical with
  | .absent => .parsed (pyDictUpdate [] generated)
  | .unreadable => .parsed (pyDictUpdate [] generated)
  | .parsedNonMapping => .parsedNonMapping
  | .parsed m => .parsed (pyDictUpdate m generated)

/-- A concrete statistics record used for witnesses and counterexamples. -/
def sampleStats : CompressionStatistics :=
  { original_size_mb := 10
    compressed_size_mb := 1
    compression_ratio := 10
    compression_time_seconds := 2
    decompression_time_seconds := 1
    compression_format := "spz"
    input_file := PyPath.mk [] "point_cloud.ply"
    compressed_file := PyPath.mk [] "point_cloud.spz"
    decompressed_file := PyPath.mk [] "point_cloud_decompressed_spz.ply"
    cpu_name := "cpu"
    gpu_name := "gpu" }

/-! ## Timing (`main.py`, lines 212-231).

Wall clock time is modelled as an exact rational.  `t0` is the value of
`time.time()` at line 213, `compressDuration` and `decompressDuration` the
real durations of the two codec invocations. -/

/-- The two elapsed times the round trip records: `compression_time` is
computed at line 221 as `time.time() - start_time`, and
`decompression_time` at line 231 again as `time.time() - start_time`,
against the same `start_time` taken at line 213, which is never reset
between the two steps. -/
def roundTripTimes (t0 compressDuration decompressDuration : ℚ) : ℚ × ℚ :=
  let start_time := t0
  let timeAfterCompress := t0 + compressDuration
  let compression_time := timeAfterCompress - start_time
  let timeAfterDecompress := timeAfterCompress + decompressDuration
  let decompression_time := timeAfterDecompress - start_time
  (compression_time, decompression_time)

/-! ## Building the statistics record (`main.py`, lines 233-245). -/

/-- Construction of the `CompressionStatistics` record at `main.py` lines
233-245 from the raw byte sizes (`stat().st_size`) of the original and
compressed files.  The ratio is computed directly from the byte counts at
line 236; the MB fields are the byte counts divided by 1024 twice. -/
def buildCompressionStatistics (origBytes compBytes : ℕ) (ctime dtime : ℚ)
    (fmt : EligibleCompressionFormat) (input compressed decompressed : PyPath)
    (cpu gpu : String) : CompressionStatistics :=
  { original_size_mb := (origBytes : ℚ) / 1024 / 1024
    compressed_size_mb := (compBytes : ℚ) / 1024 / 1024
    compression_ratio := (origBytes : ℚ) / (compBytes : ℚ)
    compression_time_seconds := ctime
    decompression_time_seconds := dtime
    compression_format := formatName fmt
    input_file := input
    compressed_file := compressed
    decompressed_file := decompressed
    cpu_name := cpu
    gpu_name := gpu }

/-! ## The codec adapter sanity check (`main.py`, lines 62-92). -/

/-- The five errors `_file_names_sanity_check` can raise, in source order.
All are `ValueError`s in Python, distinguished by their messages; the
names follow the specification's taxonomy (`inputExtMismatch` and
`outputExtMismatch` are its `FormatMismatch`, `destinationExists` and
`sourceMissing` its other two file errors). -/
inductive SanityError
| sameName
| inputExtMismatch
| outputExtMismatch
| destinationExists
| sourceMissing
deriving DecidableEq, Repr

/-- `_file_names_sanity_check` (`main.py` lines 62-92).  The checks run in
source order; the returned boolean records whether the existing
destination was unlinked at line 88 (a side effect that happens before the
input-existence check at line 90, so it can occur even when the check then
fails). -/
def fileNamesSanityCheck (input output : PyPath) (inputFormat outputFormat : String)
    (overwrite outputExists inputExists : Bool) : Except SanityError Unit × Bool :=
  if input.name = output.name then (.error .sameName, false)
  else if pySuffix input.name ≠ "." ++ inputFormat then (.error .inputExtMismatch, false)
  else if pySuffix output.name ≠ "." ++ outputFormat then (.error .outputExtMismatch, false)
  else if outputExists && !overwrite then (.error .destinationExists, false)
  else
    let unlinked := outputExists && overwrite
    if !inputExists then (.error .sourceMissing, unlinked)
    else (.ok (), unlinked)

/-- The six codec operations of `main.py` lines 95-153. -/
inductive CodecOperation
| compressSog
| decompressSog
| compressCply
| decompressCply
| compressSpz
| decompressSpz
deriving DecidableEq, Repr

/-- The input format each operation passes to the sanity check. -/
def requiredInputExtension : CodecOperation → String
| .compressSog => "ply"
| .decompressSog => "sog"
| .compressCply => "ply"
| .decompressCply => "cply"
| .compressSpz => "ply"
| .decompressSpz => "spz"

/-- The output format each operation passes to the sanity check. -/
def requiredOutputExtension : CodecOperation → String
| .compressSog => "sog"
| .decompressSog => "ply"
| .compressCply => "cply"
| .decompressCply => "ply"
| .compressSpz => "spz"
| .decompressSpz => "ply"

/-- Observable outcome of starting one codec operation: the sanity error
raised, if any; whether the external tool or library call was reached
(every one of the six operations calls `_file_names_sanity_check` first
and performs no other action before it); and whether an existing
destination was unlinked. -/
structure CodecCallResult where
  sanityError : Option SanityError
  externalInvoked : Bool
  destinationUnlinked : Bool
deriving DecidableEq, Repr

/-- Start of any of the six codec operations (`main.py` lines 95-153):
run the sanity check with that operation's format pair, then reach the
external invocation exactly when the check passed. -/
def runCodecOperation (op : CodecOperation) (input output : PyPath)
    (overwrite outputExists inputExists : Bool) : CodecCallResult :=
  match fileNamesSanityCheck input output (requiredInputExtension op)
      (requiredOutputExtension op) overwrite outputExists inputExists with
  | (.error e, unlinked) =>
      { sanityError := some e, externalInvoked := false, destinationUnlinked := unlinked }
  | (.ok _, unlinked) =>
      { sanityError := none, externalInvoked := true, destinationUnlinked := unlinked }

/-! ## Corpus staging (`run_benchmark_compression.py`, lines 99-133). -/

/-- What the source path is on disk: a regular file, a directory, or
neither (`Path.is_file` / `Path.is_dir`). -/
inductive SourceKind
| file
| directory
| neither
deriving DecidableEq, Repr

/-- Filesystem effects `_setup_staging_dir` performs, in order. -/
inductive FsEffect
| rmtree (p : PyPath)
| mkdirParents (p : PyPath)
| extractTar (src dest : PyPath)
| copytree (src dest : PyPath)
deriving DecidableEq, Repr

/-- The `ValueError("Source must be a .tar file or a directory.")` of
`run_benchmark_compression.py` line 133. -/
inductive StagingError
| unsupportedSource
deriving DecidableEq, Repr

/-- `_setup_staging_dir` (`run_benchmark_compression.py` lines 99-133),
returning the effects performed in order and the staging directory that is
returned to the caller.  `stagingExists` records whether the staging
directory existed when the function was entered; the second existence test
in the source (line 111 and line 127) is evaluated after the possible
`rmtree`. -/
def setupStagingDir (kind : SourceKind) (source outputDir : PyPath)
    (stagingExists overwrite : Bool) : Except StagingError (List FsEffect × PyPath) :=
  if kind = SourceKind.file ∧ pySuffix source.name = ".tar" then
    let stagingDir := pyChild outputDir (pyStem source.name)
    let removeEffects := if stagingExists && overwrite then [FsEffect.rmtree stagingDir] else []
    let existsAfter := stagingExists && !overwrite
    let extractEffects :=
      if existsAfter then []
      else [FsEffect.mkdirParents stagingDir, FsEffect.extractTar source stagingDir]
    .ok (removeEffects ++ extractEffects, stagingDir)
  else if kind = SourceKind.directory then
    let stagingDir := pyChild outputDir source.name
    let removeEffects := if stagingExists && overwrite then [FsEffect.rmtree stagingDir] else []
    let existsAfter := stagingExists && !overwrite
    let copyEffects := if existsAfter then [] else [FsEffect.copytree source stagingDir]
    .ok (removeEffects ++ copyEffects, stagingDir)
  else .error StagingError.unsupportedSource

/-- The Corpus Stager's staging step as the specification describes it: a
three-way case split on the source.  A `.tar`-suffixed file is extracted
fully into `output_dir/<stem>`, skipped when that directory already exists
and overwrite is false, deleted then recreated when it exists and
overwrite is true; a directory is recursively copied into
`output_dir/<name>` under the same exists/overwrite policy; anything else
is an unsupported source. -/
def stagingSpec (kind : SourceKind) (source outputDir : PyPath)
    (stagingExists overwrite : Bool) : Except StagingError (List FsEffect × PyPath) :=
  if kind = SourceKind.file ∧ pySuffix source.name = ".tar" then
    let dest := pyChild outputDir (pyStem source.name)
    if stagingExists && !overwrite then .ok ([], dest)
    else if stagingExists && overwrite then
      .ok ([FsEffect.rmtree dest, FsEffect.mkdirParents dest, FsEffect.extractTar source dest],
        dest)
    else .ok ([FsEffect.mkdirParents dest, FsEffect.extractTar source dest], dest)
  else if kind = SourceKind.directory then
    let dest := pyChild outputDir source.name
    if stagingExists && !overwrite then .ok ([], dest)
    else if stagingExists && overwrite then
      .ok ([FsEffect.rmtree dest, FsEffect.copytree source dest], dest)
    else .ok ([FsEffect.copytree source dest], dest)
  else .error StagingError.unsupportedSource

/-! ## A small filesystem for the chunked-format rename sequence
(`main.py`, lines 126-133). -/

/-- A filesystem fragment: which path holds which file contents.  Contents
are abstracted to a natural number. -/
abbrev FsState := List (PyPath × ℕ)

/-- Contents at a path, if the file exists. -/
def fsRead (fs : FsState) (p : PyPath) : Option ℕ :=
  (fs.find? (fun q => decide (q.1 = p))).map (fun q => q.2)

/-- Delete a path (no-op when absent). -/
def fsErase : FsState → PyPath → FsState
| [], _ => []
| q :: rest, p => if q.1 = p then rest else q :: fsErase rest p

/-- Create or replace the file at a path. -/
def fsWrite : FsState → PyPath → ℕ → FsState
| [], p, c => [(p, c)]
| q :: rest, p, c => if q.1 = p then (p, c) :: rest else q :: fsWrite rest p c

/-- Python `Path.rename`: move the contents from `a` to `b`, replacing any
file at `b` (no-op when `a` is absent). -/
def fsRename (fs : FsState) (a b : PyPath) : FsState :=
  match fsRead fs a with
  | some c => fsWrite (fsErase fs a) b c
  | none => fs

/-- The three effectful steps of `decompress_cply` after its sanity check
(`main.py` lines 129-133): rename the input to the working name, invoke
the external tool (which writes the output path), rename the working name
back. -/
inductive CplyStep
| renameFile (a b : PyPath)
| externWrite (src dst : PyPath)
deriving DecidableEq, Repr

/-- Apply one step.  `decode` models the external `splat-transform`
invocation: the contents it writes to the destination as a function of the
contents it reads from the source (a no-op when the source is missing,
standing for the tool failing before producing output). -/
def applyCplyStep (decode : ℕ → ℕ) (fs : FsState) : CplyStep → FsState
| .renameFile a b => fsRename fs a b
| .externWrite src dst =>
    match fsRead fs src with
    | some c => fsWrite fs dst (decode c)
    | none => fs

/-- The step sequence of `decompress_cply` (`main.py` lines 129-133), with
the working name computed by `with_suffix(".compressed.ply")` at
line 129. -/
def decompressCplySteps (input output : PyPath) : List CplyStep :=
  let temp := pyWithSuffix input ".compressed.ply"
  [CplyStep.renameFile input temp, CplyStep.externWrite temp output,
   CplyStep.renameFile temp input]

/-- Run a prefix (or all) of the steps. -/
def runCplySteps (decode : ℕ → ℕ) (fs : FsState) (steps : List CplyStep) : FsState :=
  steps.foldl (applyCplyStep decode) fs

/-- `decompress_cply` (`main.py` lines 126-133): the sanity check with
formats `cply`/`ply`, the possible unlink of an existing destination, then
the rename/invoke/rename sequence. -/
def decompressCply (decode : ℕ → ℕ) (fs : FsState) (input output : PyPath)
    (overwrite : Bool) : Except SanityError FsState :=
  match fileNamesSanityCheck input output "cply" "ply" overwrite
      (fsRead fs output).isSome (fsRead fs input).isSome with
  | (.error e, _) => .error e
  | (.ok _, unlinked) =>
      let fs1 := if unlinked then fsErase fs output else fs
      .ok (runCplySteps decode fs1 (decompressCplySteps input output))

/-! ## The batch driver's import of the main module
(`run_benchmark_compression.py`, lines 13-17). -/

/-- Every top-level name bound in `main.py`: the imported names (lines
3-13) followed by the definitions (lines 15-290).  These are exactly the
attributes a `from compression_round_tripping.main import ...` can
resolve. -/
def mainModuleTopLevelNames : List String :=
  ["json", "platform", "subprocess", "time", "Path", "Literal", "get_args",
   "spz", "tyro", "beartype", "BaseModel", "field_serializer",
   "EligibleFileFormats", "EligibleCompressionFormats", "CompressionStatistics",
   "SpzOptions", "_file_names_sanity_check", "compress_sog", "decompress_sog",
   "compress_cply", "decompress_cply", "compress_spz", "decompress_spz",
   "get_cpu_name", "get_gpu_name", "round_trip_compression"]

/-- The names `run_benchmark_compression.py` lines 13-17 import from the
main module. -/
def benchmarkImportsFromMain : List String :=
  ["EligibleCompressionFormats", "PathInfo", "round_trip_compression"]

/-- The parameters accepted by `round_trip_compression` (`main.py` lines
173-181). -/
def roundTripCompressionParams : List String :=
  ["input_file", "compression_format", "compressed_file", "decompressed_file",
   "overwrite", "use_cpu"]

/-- The keyword arguments `_process_scene` passes to
`round_trip_compression` (`run_benchmark_compression.py` lines 166-185). -/
def processSceneRoundTripKwargs : List String :=
  ["input_file", "compression_format", "compressed_file", "decompressed_file",
   "overwrite", "use_cpu", "input_path_info", "compressed_path_info",
   "decompressed_path_info"]

/-- The first name of the import list that the main module does not bind;
Python raises `ImportError` for it while executing the module body of the
batch driver, before any function in that module can run. -/
def firstUnresolvedImport : Option String :=
  benchmarkImportsFromMain.find? (fun n => !(mainModuleTopLevelNames.contains n))

/-- Whether a call supplying `processSceneRoundTripKwargs` by keyword is
accepted by the signature of `round_trip_compression` (Python raises
`TypeError` for an unexpected keyword argument). -/
def callRoundTripAccepted : Bool :=
  processSceneRoundTripKwargs.all (fun k => roundTripCompressionParams.contains k)

/-- The arguments of `run_benchmark` (`run_benchmark_compression.py` lines
23-32). -/
structure RunBenchmarkArgs where
  source : PyPath
  output_dir : PyPath
  compression_formats : List EligibleCompressionFormat
  iteration_filter : List String
  overwrite : Bool
  use_cpu : Bool
  keep_extracted : Bool
deriving Repr

/-- Invoking `run_benchmark` from the batch driver module: the module body
must first execute its imports; an unresolved import aborts the invocation
with an `ImportError` before any round trip runs.  The success branch
(reachable only when every import resolves) would run the benchmark and
report the number of completed round trips. -/
def runBenchmarkInvocation (args : RunBenchmarkArgs) : Except String ℕ :=
  match firstUnresolvedImport with
  | some n => .error ("ImportError: cannot import name " ++ n)
  | none => .ok (args.compression_formats.length)

/-! ## Lemmas about the mapping operations. -/

theorem dictGet_dictSet_self (d : List (String × StatsValue)) (k : String) (v : StatsValue) :
    dictGet (dictSet d k v) k = some v := by
  induction d with
  | nil => simp [dictSet, dictGet, List.find?]
  | cons q rest ih =>
      by_cases h : q.1 = k
      · simp [dictSet, h, dictGet, List.find?]
      · simpa [dictSet, h, dictGet, List.find?] using ih

theorem dictGet_dictSet_ne (d : List (String × StatsValue)) (k k' : String) (v : StatsValue)
    (h : k' ≠ k) : dictGet (dictSet d k v) k' = dictGet d k' := by
  induction d with
  | nil => simp [dictSet, dictGet, List.find?, Ne.symm h]
  | cons q rest ih =>
      by_cases hq : q.1 = k
      · subst hq
        simp [dictSet, dictGet, List.find?, Ne.symm h, h]
      · by_cases hq' : q.1 = k'
        · simp [dictSet, hq, dictGet, List.find?, hq', h]
        · simpa [dictSet, hq, dictGet, List.find?, hq'] using ih

theorem mem_dictSet (d : List (String × StatsValue)) (k : String) (v : StatsValue)
    (p : String × StatsValue) (hp : p ∈ dictSet d k v) : p = (k, v) ∨ p ∈ d := by
  induction d with
  | nil => simpa [dictSet] using hp
  | cons q rest ih =>
      by_cases h : q.1 = k
      · simp only [dictSet, h, if_pos] at hp
        rcases List.mem_cons.mp hp with h1 | h1
        · exact Or.inl h1
        · exact Or.inr (List.mem_cons_of_mem _ h1)
      · simp only [dictSet, h, if_neg, not_false_iff] at hp
        rcases List.mem_cons.mp hp with h1 | h1
        · exact Or.inr (h1 ▸ List.mem_cons_self _ _)
        · rcases ih h1 with h2 | h2
          · exact Or.inl h2
          · exact Or.inr (List.mem_cons_of_mem _ h2)

/-- Every compression format's name is a recognized key. -/
theorem formatName_mem_eligible (fmt : EligibleCompressionFormat) :
    formatName fmt ∈ eligible_formats := by
  cases fmt <;> simp [formatName, eligible_formats]

/-- Distinct formats have distinct names. -/
theorem formatName_injective (a b : EligibleCompressionFormat)
    (h : formatName a = formatName b) : a = b := by
  cases a <;> cases b <;> first | rfl | simp [formatName] at h

/-- When every entry is valid, the validation loop keeps the mapping
unchanged in both modes. -/
theorem validateEntries_of_all_valid (entries : List (String × StatsValue)) (overwrite : Bool)
    (h : ∀ p ∈ entries, entryValid p = true) :
    validateEntries entries overwrite = .ok entries := by
  unfold validateEntries
  cases overwrite with
  | true =>
      simp only [if_pos]
      rw [List.filter_eq_self.mpr h]
  | false =>
      simp only [Bool.false_eq_true, if_neg, not_false_iff]
      have : entries.find? (fun q => !entryValid q) = none := by
        rw [List.find?_eq_none]
        intro x hx
        simp [h x hx]
      rw [this]

/-- Whatever the validation loop returns consists of valid entries. -/
theorem validateEntries_ok_all_valid (entries kept : List (String × StatsValue))
    (overwrite : Bool) (h : validateEntries entries overwrite = .ok kept) :
    ∀ p ∈ kept, entryValid p = true := by
  unfold validateEntries at h
  cases overwrite with
  | true =>
      simp only [if_pos] at h
      cases h
      intro p hp
      exact List.of_mem_filter hp
  | false =>
      simp only [Bool.false_eq_true, if_neg, not_false_iff] at h
      cases hf : entries.find? (fun q => !entryValid q) with
      | some q => rw [hf] at h; cases h
      | none =>
          rw [hf] at h
          cases h
          intro p hp
          have := List.find?_eq_none.mp hf p hp
          simpa using this

/-- A successful merge leaves only valid entries in the mapping. -/
theorem mergeStatistics_ok_all_valid (state : StatsFileState)
    (fmt : EligibleCompressionFormat) (freshRecord : CompressionStatistics)
    (overwrite : Bool) (d : List (String × StatsValue))
    (h : mergeStatistics state fmt freshRecord overwrite = .ok d) :
    ∀ p ∈ d, entryValid p = true := by
  have hfresh : entryValid (formatName fmt, StatsValue.validated freshRecord) = true := by
    simp [entryValid, statsValueOk, formatName_mem_eligible]
  cases state with
  | absent =>
      simp only [mergeStatistics] at h
      cases h
      intro p hp
      rcases mem_dictSet _ _ _ _ hp with h1 | h1
      · rw [h1]; exact hfresh
      · simp at h1
  | unreadable =>
      simp only [mergeStatistics] at h
      cases overwrite with
      | true =>
          simp only [if_pos] at h
          cases h
          intro p hp
          rcases mem_dictSet _ _ _ _ hp with h1 | h1
          · rw [h1]; exact hfresh
          · simp at h1
      | false => simp at h
  | parsedNonMapping => simp only [mergeStatistics] at h; cases h
  | parsed entries =>
      simp only [mergeStatistics] at h
      cases hv : validateEntries entries overwrite with
      | error e => rw [hv] at h; cases h
      | ok kept =>
          rw [hv] at h
          cases h
          intro p hp
          rcases mem_dictSet _ _ _ _ hp with h1 | h1
          · rw [h1]; exact hfresh
          · exact validateEntries_ok_all_valid entries kept overwrite hv p h1

/-- A successful merge installs the fresh record under its format key. -/
theorem mergeStatistics_ok_get (state : StatsFileState)
    (fmt : EligibleCompressionFormat) (freshRecord : CompressionStatistics)
    (overwrite : Bool) (d : List (String × StatsValue))
    (h : mergeStatistics state fmt freshRecord overwrite = .ok d) :
    dictGet d (formatName fmt) = some (StatsValue.validated freshRecord) := by
  cases state with
  | absent =>
      simp only [mergeStatistics] at h
      cases h
      exact dictGet_dictSet_self _ _ _
  | unreadable =>
      simp only [mergeStatistics] at h
      cases overwrite with
      | true => simp only [if_pos] at h; cases h; exact dictGet_dictSet_self _ _ _
      | false => simp at h
  | parsedNonMapping => simp only [mergeStatistics] at h; cases h
  | parsed entries =>
      simp only [mergeStatistics] at h
      cases hv : validateEntries entries overwrite with
      | error e => rw [hv] at h; cases h
      | ok kept => rw [hv] at h; cases h; exact dictGet_dictSet_self _ _ _

/-- A successful `mergeRun` is a successful `mergeStatistics` followed by
the write-back. -/
theorem mergeRun_ok_inv (state : StatsFileState) (fmt : EligibleCompressionFormat)
    (freshRecord : CompressionStatistics) (overwrite : Bool)
    (d : List (String × StatsValue))
    (h : mergeRun state fmt freshRecord overwrite = (StatsFileState.parsed d, none)) :
    mergeStatistics state fmt freshRecord overwrite = .ok d := by
  unfold mergeRun at h
  cases hm : mergeStatistics state fmt freshRecord overwrite with
  | ok d' =>
      rw [hm] at h
      cases h
      rfl
  | error e => rw [hm] at h; simp at h


/-! ## Lemmas about the small filesystem. -/

theorem fsRead_fsWrite_self (fs : FsState) (p : PyPath) (c : ℕ) :
    fsRead (fsWrite fs p c) p = some c := by
  induction fs with
  | nil => simp [fsWrite, fsRead, List.find?]
  | cons q rest ih =>
      by_cases h : q.1 = p
      · simp [fsWrite, h, fsRead, List.find?]
      · simpa [fsWrite, h, fsRead, List.find?] using ih

theorem fsRead_fsWrite_ne (fs : FsState) (p q : PyPath) (c : ℕ) (h : q ≠ p) :
    fsRead (fsWrite fs p c) q = fsRead fs q := by
  induction fs with
  | nil => simp [fsWrite, fsRead, List.find?, Ne.symm h]
  | cons r rest ih =>
      by_cases hr : r.1 = p
      · subst hr
        simp [fsWrite, fsRead, List.find?, Ne.symm h, h]
      · by_cases hq : r.1 = q
        · simp [fsWrite, hr, fsRead, List.find?, hq, h]
        · simpa [fsWrite, hr, fsRead, List.find?, hq] using ih

theorem fsRead_fsErase_ne (fs : FsState) (p q : PyPath) (h : q ≠ p) :
    fsRead (fsErase fs p) q = fsRead fs q := by
  induction fs with
  | nil => simp [fsErase]
  | cons r rest ih =>
      by_cases hr : r.1 = p
      · subst hr
        simp [fsErase, fsRead, List.find?, Ne.symm h]
      · by_cases hq : r.1 = q
        · simp [fsErase, hr, fsRead, List.find?, hq, h]
        · simpa [fsErase, hr, fsRead, List.find?, hq] using ih

theorem fsRename_of_read (fs : FsState) (a b : PyPath) (c : ℕ)
    (h : fsRead fs a = some c) : fsRename fs a b = fsWrite (fsErase fs a) b c := by
  unfold fsRename
  rw [h]

/-! ## Claim theorems. -/

/-- Claim C1: running the round-trip merge for format A and then for
format B (distinct formats) on the same statistics file yields a file
containing both entries, with format A's entry unchanged by the merge of
format B — merging never discards a valid existing entry for another
format.  The first merge is assumed to have succeeded, producing the
on-disk mapping `d1`; the second merge then also succeeds, and the
resulting file maps A's key to the record the first merge wrote and B's
key to the fresh record. -/
theorem C1_sequential_merges_preserve_entries
    (st : StatsFileState) (A B : EligibleCompressionFormat)
    (recA recB : CompressionStatistics) (ow1 ow2 : Bool)
    (d1 : List (String × StatsValue))
    (hAB : A ≠ B)
    (h1 : mergeRun st A recA ow1 = (StatsFileState.parsed d1, none)) :
    mergeRun (StatsFileState.parsed d1) B recB ow2
        = (StatsFileState.parsed (dictSet d1 (formatName B) (StatsValue.validated recB)), none)
      ∧ dictGet (dictSet d1 (formatName B) (StatsValue.validated recB)) (formatName A)
          = some (StatsValue.validated recA)
      ∧ dictGet (dictSet d1 (formatName B) (StatsValue.validated recB)) (formatName B)
          = some (StatsValue.validated recB) := by
  have hok : mergeStatistics st A recA ow1 = .ok d1 := mergeRun_ok_inv _ _ _ _ _ h1
  have hvalid : ∀ p ∈ d1, entryValid p = true := mergeStatistics_ok_all_valid _ _ _ _ _ hok
  have hgetA : dictGet d1 (formatName A) = some (StatsValue.validated recA) :=
    mergeStatistics_ok_get _ _ _ _ _ hok
  have hnames : formatName A ≠ formatName B := fun h => hAB (formatName_injective _ _ h)
  refine ⟨?_, ?_, dictGet_dictSet_self _ _ _⟩
  · simp only [mergeRun, mergeStatistics, validateEntries_of_all_valid d1 ow2 hvalid]
  · rw [dictGet_dictSet_ne d1 (formatName B) (formatName A) _ hnames]
    exact hgetA

/-- Witness for C1 at a concrete input: a file holding a `sog` entry, then
a merge for `spz`. -/
theorem C1_witness :
    mergeRun (StatsFileState.parsed [("sog", StatsValue.validated sampleStats)])
        EligibleCompressionFormat.spz sampleStats false
        = (StatsFileState.parsed
            (dictSet [("sog", StatsValue.validated sampleStats)] "spz"
              (StatsValue.validated sampleStats)), none)
      ∧ dictGet (dictSet [("sog", StatsValue.validated sampleStats)] "spz"
            (StatsValue.validated sampleStats)) "sog"
          = some (StatsValue.validated sampleStats)
      ∧ dictGet (dictSet [("sog", StatsValue.validated sampleStats)] "spz"
            (StatsValue.validated sampleStats)) "spz"
          = some (StatsValue.validated sampleStats) :=
  C1_sequential_merges_preserve_entries StatsFileState.absent
    EligibleCompressionFormat.sog EligibleCompressionFormat.spz sampleStats sampleStats
    false false [("sog", StatsValue.validated sampleStats)] (by decide) (by decide)

/-- Claim C2: the batch driver module imports `PathInfo` from the main
module, which binds no such name, and `_process_scene` passes the keyword
arguments `input_path_info`, `compressed_path_info` and
`decompressed_path_info`, which `round_trip_compression` does not accept;
consequently every batch invocation of `run_benchmark` fails (with an
`ImportError` while loading the module) before completing any round
trip. -/
theorem C2_batch_driver_cannot_run :
    (∀ args : RunBenchmarkArgs,
        runBenchmarkInvocation args = .error ("ImportError: cannot import name PathInfo"))
    ∧ "PathInfo" ∈ benchmarkImportsFromMain
    ∧ "PathInfo" ∉ mainModuleTopLevelNames
    ∧ ("input_path_info" ∈ processSceneRoundTripKwargs
        ∧ "input_path_info" ∉ roundTripCompressionParams)
    ∧ callRoundTripAccepted = false := by
  refine ⟨fun args => rfl, by decide, by decide, ⟨by decide, by decide⟩, by decide⟩

/-- Claim C3 (code bug): the round trip records `compression_time` as the
elapsed time of the compress step alone, but `decompression_time` is
computed against the same `start_time` taken before the compress step
(`main.py` line 231; `start_time` is never reset after line 213), so the
recorded decompression time is the compress and decompress durations
combined, not the decompress step alone.  At the failing input — a
compress step of 2 seconds and a decompress step of 1 second — the code
records 3 seconds, where the claim requires 1. -/
theorem C3_decompression_time_is_cumulative :
    (∀ t0 compressDuration decompressDuration : ℚ,
        roundTripTimes t0 compressDuration decompressDuration
          = (compressDuration, compressDuration + decompressDuration))
    ∧ (roundTripTimes 0 2 1).2 = 3
    ∧ (roundTripTimes 0 2 1).2 ≠ 1 := by
  refine ⟨fun t0 dc dd => ?_, by norm_num [roundTripTimes], by norm_num [roundTripTimes]⟩
  simp only [roundTripTimes, Prod.mk.injEq]
  constructor <;> ring

/-- Counterexample to claim C4: the claim requires that at every layer
that merges statistics — including the Batch Driver's consolidation —
corrupt data is purged only under an explicit overwrite directive and the
merge is otherwise refused, preserving the last known-good file.  But the
driver's consolidation (`run_benchmark_compression.py` lines 196-200,
`except Exception: pass`) does not consult the overwrite flag at all: with
an undecodable canonical stats file it silently proceeds from an empty
mapping and rewrites the file, instead of refusing.  Here a run with
`overwrite=false` and a corrupt canonical file replaces that file with the
freshly generated entry. -/
theorem C4_counterexample :
    consolidateSceneStats StatsFileState.unreadable
        [("spz", StatsValue.validated sampleStats)]
      = StatsFileState.parsed [("spz", StatsValue.validated sampleStats)]
    ∧ StatsFileState.parsed [("spz", StatsValue.validated sampleStats)]
        ≠ StatsFileState.unreadable := by
  exact ⟨by decide, by decide⟩

/-- Claim C4 as amended: the Statistics Store merge inside
`round_trip_compression` never silently merges a corrupt file — with
`overwrite=false` it refuses the whole merge and leaves the file in its
previous state — but the Batch Driver's consolidation of the transient
per-run statistics file into the canonical per-scene file is not such a
layer: it silently treats an undecodable canonical file as an empty
mapping and rewrites it with only the generated entries, regardless of the
overwrite flag. -/
theorem C4_amended_store_refuses_driver_overwrites :
    (∀ (fmt : EligibleCompressionFormat) (r : CompressionStatistics),
        mergeRun StatsFileState.unreadable fmt r false
          = (StatsFileState.unreadable, some MergeError.corruptStatsFile))
    ∧ (∀ generated : List (String × StatsValue),
        consolidateSceneStats StatsFileState.unreadable generated
          = StatsFileState.parsed (pyDictUpdate [] generated)) := by
  exact ⟨fun fmt r => rfl, fun generated => rfl⟩

/-- Counterexample to claim C5: the claim covers every existing statistics
file "whose contents fail to parse as a mapping" and requires
`overwrite=false` to abort with the corrupt-stats-file error and
`overwrite=true` to proceed from an empty mapping.  A file whose contents
are valid JSON but not a mapping (for instance the text `[1, 2]`) fails to
parse as a mapping, yet the code only catches `json.JSONDecodeError`
(`main.py` line 252): the decoded list reaches `.items()` at line 261 and
raises an `AttributeError` in both modes — `overwrite=true` does not
proceed from an empty mapping, and `overwrite=false` aborts with a
different error than `CorruptStatsFile`. -/
theorem C5_counterexample :
    mergeRun StatsFileState.parsedNonMapping EligibleCompressionFormat.sog sampleStats true
        = (StatsFileState.parsedNonMapping, some MergeError.notAMapping)
    ∧ (mergeRun StatsFileState.parsedNonMapping EligibleCompressionFormat.sog
        sampleStats true).2 ≠ none
    ∧ (mergeRun StatsFileState.parsedNonMapping EligibleCompressionFormat.sog
        sampleStats false).2 ≠ some MergeError.corruptStatsFile := by
  exact ⟨by decide, by decide, by decide⟩

/-- Claim C5 as amended: for every existing statistics file whose contents
fail to decode as JSON at all, a merge with `overwrite=false` aborts with
the `CorruptStatsFile` error leaving the file unmodified, and a merge with
`overwrite=true` proceeds from an empty mapping; a file that decodes as
JSON but is not a mapping instead aborts in both modes with an attribute
error (not `CorruptStatsFile`), also before any write. -/
theorem C5_amended_parse_failure_policy :
    ∀ (fmt : EligibleCompressionFormat) (r : CompressionStatistics),
      mergeRun StatsFileState.unreadable fmt r false
          = (StatsFileState.unreadable, some MergeError.corruptStatsFile)
        ∧ mergeRun StatsFileState.unreadable fmt r true
          = (StatsFileState.parsed [(formatName fmt, StatsValue.validated r)], none)
        ∧ mergeRun StatsFileState.parsedNonMapping fmt r false
          = (StatsFileState.parsedNonMapping, some MergeError.notAMapping)
        ∧ mergeRun StatsFileState.parsedNonMapping fmt r true
          = (StatsFileState.parsedNonMapping, some MergeError.notAMapping) := by
  exact fun fmt r => ⟨rfl, rfl, rfl, rfl⟩

/-- Claim C6: for every statistics file that parses as a mapping but
contains an entry whose key is not a recognized format or whose value does
not validate, a merge with `overwrite=false` aborts with the
`InvalidStatsEntry` error leaving the file untouched, and a merge with
`overwrite=true` drops exactly the invalid entries (the valid ones are
kept and the fresh record is installed under its own key). -/
theorem C6_invalid_entry_policy
    (entries : List (String × StatsValue)) (fmt : EligibleCompressionFormat)
    (r : CompressionStatistics)
    (h : ∃ p ∈ entries, entryValid p = false) :
    (∃ k, mergeRun (StatsFileState.parsed entries) fmt r false
        = (StatsFileState.parsed entries, some (MergeError.invalidStatsEntry k)))
    ∧ mergeRun (StatsFileState.parsed entries) fmt r true
        = (StatsFileState.parsed
            (dictSet (entries.filter entryValid) (formatName fmt)
              (StatsValue.validated r)), none) := by
  constructor
  · have hsome : (entries.find? (fun q => !entryValid q)).isSome := by
      rw [List.find?_isSome]
      rcases h with ⟨p, hp, hv⟩
      exact ⟨p, hp, by simp [hv]⟩
    rcases Option.isSome_iff_exists.mp hsome with ⟨q, hq⟩
    refine ⟨q.1, ?_⟩
    simp only [mergeRun, mergeStatistics, validateEntries, Bool.false_eq_true, if_neg,
      not_false_iff, hq]
  · simp only [mergeRun, mergeStatistics, validateEntries, if_pos]

/-- Witness for C6 at a concrete input: a file with one entry under an
unrecognized key, merged in overwrite mode. -/
theorem C6_witness :
    mergeRun (StatsFileState.parsed [("bogus", StatsValue.malformed "junk")])
        EligibleCompressionFormat.sog sampleStats true
      = (StatsFileState.parsed
          (dictSet ([("bogus", StatsValue.malformed "junk")].filter entryValid) "sog"
            (StatsValue.validated sampleStats)), none) :=
  (C6_invalid_entry_policy [("bogus", StatsValue.malformed "junk")]
    EligibleCompressionFormat.sog sampleStats
    ⟨("bogus", StatsValue.malformed "junk"), by decide, by decide⟩).2

/-- Counterexample to claim C7: the claim requires every codec operation
whose input file extension mismatches the format's required input
extension to raise the `FormatMismatch` error.  When the caller passes the
same file name for input and output, the sanity check's first test fires
instead (`main.py` lines 71-73) and the distinct-names error is raised,
not `FormatMismatch`: here `compress_sog` on input `a.sog` / output
`a.sog` — an input whose `.sog` extension mismatches the required `.ply` —
reports the same-name error. -/
theorem C7_counterexample :
    pySuffix "a.sog" ≠ "." ++ requiredInputExtension CodecOperation.compressSog
    ∧ runCodecOperation CodecOperation.compressSog (PyPath.mk [] "a.sog")
        (PyPath.mk [] "a.sog") true true true
      = { sanityError := some SanityError.sameName, externalInvoked := false,
          destinationUnlinked := false }
    ∧ SanityError.sameName ≠ SanityError.inputExtMismatch := by
  exact ⟨by decide, by decide, by decide⟩

/-- Claim C7 as amended: for every codec operation whose input and output
names differ and whose input file extension does not match the format's
required input extension, the operation raises the `FormatMismatch` error
before any external process is invoked, with no subprocess side effects
and no deletion of an existing destination in overwrite mode.  (When the
input and output share a name the distinct-names error is raised instead,
still before any external call.) -/
theorem C7_ext_mismatch_blocks_before_side_effects
    (op : CodecOperation) (input output : PyPath)
    (overwrite outputExists inputExists : Bool)
    (hname : input.name ≠ output.name)
    (hext : pySuffix input.name ≠ "." ++ requiredInputExtension op) :
    runCodecOperation op input output overwrite outputExists inputExists
      = { sanityError := some SanityError.inputExtMismatch, externalInvoked := false,
          destinationUnlinked := false } := by
  unfold runCodecOperation fileNamesSanityCheck
  rw [if_neg hname, if_pos hext]

/-- Witness for C7 at a concrete input: `compress_sog` with a `.sog`
input (required: `.ply`), an existing destination and overwrite on. -/
theorem C7_witness :
    runCodecOperation CodecOperation.compressSog (PyPath.mk [] "b.sog")
        (PyPath.mk [] "c.sog") true true true
      = { sanityError := some SanityError.inputExtMismatch, externalInvoked := false,
          destinationUnlinked := false } :=
  C7_ext_mismatch_blocks_before_side_effects CodecOperation.compressSog
    (PyPath.mk [] "b.sog") (PyPath.mk [] "c.sog") true true true
    (by decide) (by decide)

/-- Claim C8: for every successful round-trip run (compressed artifact
non-empty), the recorded `compression_ratio` equals the original file's
byte size divided by the compressed file's byte size, computed directly
from the raw byte counts (`main.py` line 236), not derived from the
megabyte-scaled size fields. -/
theorem C8_ratio_from_raw_bytes
    (origBytes compBytes : ℕ) (ctime dtime : ℚ) (fmt : EligibleCompressionFormat)
    (input compressed decompressed : PyPath) (cpu gpu : String)
    (h : 0 < compBytes) :
    ratioField (buildCompressionStatistics origBytes compBytes ctime dtime fmt input
          compressed decompressed cpu gpu)
        = (origBytes : ℚ) / (compBytes : ℚ)
      ∧ ratioField (buildCompressionStatistics origBytes compBytes ctime dtime fmt input
            compressed decompressed cpu gpu) * (compBytes : ℚ)
          = (origBytes : ℚ) := by
  have hc : (compBytes : ℚ) ≠ 0 := by
    exact_mod_cast Nat.pos_iff_ne_zero.mp h
  constructor
  · rfl
  · show (origBytes : ℚ) / (compBytes : ℚ) * (compBytes : ℚ) = (origBytes : ℚ)
    exact div_mul_cancel₀ _ hc

/-- Witness for C8 at a concrete input: a 4 MiB original and a 2 MiB
compressed artifact. -/
theorem C8_witness :
    ratioField (buildCompressionStatistics 4194304 2097152 2 1
          EligibleCompressionFormat.spz (PyPath.mk [] "a.ply") (PyPath.mk [] "a.spz")
          (PyPath.mk [] "a2.ply") "cpu" "gpu")
        = (4194304 : ℚ) / (2097152 : ℚ)
      ∧ ratioField (buildCompressionStatistics 4194304 2097152 2 1
            EligibleCompressionFormat.spz (PyPath.mk [] "a.ply") (PyPath.mk [] "a.spz")
            (PyPath.mk [] "a2.ply") "cpu" "gpu") * (2097152 : ℚ)
          = (4194304 : ℚ) :=
  C8_ratio_from_raw_bytes 4194304 2097152 2 1 EligibleCompressionFormat.spz
    (PyPath.mk [] "a.ply") (PyPath.mk [] "a.spz") (PyPath.mk [] "a2.ply") "cpu" "gpu"
    (by decide)

/-- Claim C9: the Corpus Stager's staging step behaves as a three-way case
split on the source — a `.tar`-suffixed file is extracted fully into
`output_dir/<stem>` (skipped when that directory already exists and
overwrite is false; deleted then recreated when it exists and overwrite is
true), a directory is recursively copied into `output_dir/<name>` under
the same exists/overwrite policy, and any other source raises the
unsupported-source error.  `stagingSpec` transcribes the claim's case
split; the source function realizes it for every input. -/
theorem C9_staging_three_way_split
    (kind : SourceKind) (source outputDir : PyPath) (stagingExists overwrite : Bool) :
    setupStagingDir kind source outputDir stagingExists overwrite
      = stagingSpec kind source outputDir stagingExists overwrite := by
  unfold setupStagingDir stagingSpec
  cases stagingExists <;> cases overwrite <;>
    by_cases h1 : kind = SourceKind.file ∧ pySuffix source.name = ".tar" <;>
      by_cases h2 : kind = SourceKind.directory <;>
        simp [h1, h2]

/-- Counterexample to claim C10: the claim requires that after every
successful `cply` decompress the input file exists again under its
original name with its contents unchanged.  The working name is computed
as `input.with_suffix(".compressed.ply")` (`main.py` line 129); nothing
stops a caller from passing exactly that path as the output (its `.ply`
suffix passes the sanity check, and its name differs from the input's).
The external tool then writes the decompressed output over the working
file, and the final rename installs that output — not the original
contents — under the input's name.  Concretely: input `x.cply` with
contents `7`, output `x.compressed.ply`, and a tool whose output differs
from its input (`decode = (· + 1)`): the operation succeeds and the input
path ends up holding `8`. -/
theorem C10_counterexample :
    decompressCply (fun c => c + 1) [(PyPath.mk [] "x.cply", 7)]
        (PyPath.mk [] "x.cply") (PyPath.mk [] "x.compressed.ply") false
      = .ok [(PyPath.mk [] "x.cply", 8)]
    ∧ (7 : ℕ) ≠ 8 := by
  exact ⟨rfl, by decide⟩

/-- Claim C10 as amended: for every successful decompress of the chunked
format whose output path is not the working name itself, the compressed
input is renamed to the working name before the external call and renamed
back afterward, so after the operation completes the input file exists
again under its original name with its contents unchanged; and after any
prefix of the operation's steps — a failure mid-operation — the original
contents are still on disk, either under the original name or under the
working name. -/
theorem C10_rename_round_trip
    (decode : ℕ → ℕ) (fs : FsState) (input output : PyPath) (c : ℕ)
    (hin : fsRead fs input = some c)
    (hot : output ≠ pyWithSuffix input ".compressed.ply") :
    fsRead (runCplySteps decode fs (decompressCplySteps input output)) input = some c
    ∧ ∀ k : ℕ,
        fsRead (runCplySteps decode fs ((decompressCplySteps input output).take k)) input
            = some c
        ∨ fsRead (runCplySteps decode fs ((decompressCplySteps input output).take k))
            (pyWithSuffix input ".compressed.ply") = some c := by
  set temp := pyWithSuffix input ".compressed.ply" with htemp
  have hrename : ∀ (g : FsState) (a b : PyPath),
      applyCplyStep decode g (CplyStep.renameFile a b) = fsRename g a b := fun g a b => rfl
  have hfs1 : fsRename fs input temp = fsWrite (fsErase fs input) temp c :=
    fsRename_of_read fs input temp c hin
  have hread1 : fsRead (fsRename fs input temp) temp = some c := by
    rw [hfs1]; exact fsRead_fsWrite_self _ _ _
  have hfs2 : applyCplyStep decode (fsRename fs input temp) (CplyStep.externWrite temp output)
      = fsWrite (fsRename fs input temp) output (decode c) := by
    simp only [applyCplyStep, hread1]
  have hread2 : fsRead (fsWrite (fsRename fs input temp) output (decode c)) temp = some c := by
    rw [fsRead_fsWrite_ne (fsRename fs input temp) output temp (decode c) (Ne.symm hot)]
    exact hread1
  have hfs3 : fsRename (fsWrite (fsRename fs input temp) output (decode c)) temp input
      = fsWrite (fsErase (fsWrite (fsRename fs input temp) output (decode c)) temp) input c :=
    fsRename_of_read _ _ _ _ hread2
  have hfull : fsRead (runCplySteps decode fs (decompressCplySteps input output)) input
      = some c := by
    simp only [decompressCplySteps, runCplySteps, List.foldl, ← htemp]
    rw [hrename fs input temp, hfs2, hrename _ temp input, hfs3]
    exact fsRead_fsWrite_self _ _ _
  refine ⟨hfull, fun k => ?_⟩
  match k with
  | 0 => exact Or.inl (by simpa [decompressCplySteps, runCplySteps] using hin)
  | 1 =>
      refine Or.inr ?_
      simp only [decompressCplySteps, runCplySteps, List.take, List.foldl, ← htemp]
      rw [hrename fs input temp]
      exact hread1
  | 2 =>
      refine Or.inr ?_
      simp only [decompressCplySteps, runCplySteps, List.take, List.foldl, ← htemp]
      rw [hrename fs input temp, hfs2]
      exact hread2
  | (n + 3) =>
      refine Or.inl ?_
      have htake : (decompressCplySteps input output).take (n + 3)
          = decompressCplySteps input output := by
        simp [decompressCplySteps, List.take]
      rw [htake]
      exact hfull

/-- Witness for C10 at a concrete input: input `y.cply` with contents `5`,
output `out.ply`, identity tool. -/
theorem C10_witness :
    fsRead (runCplySteps (fun c => c) [(PyPath.mk [] "y.cply", 5)]
        (decompressCplySteps (PyPath.mk [] "y.cply") (PyPath.mk [] "out.ply")))
      (PyPath.mk [] "y.cply") = some 5 :=
  (C10_rename_round_trip (fun c => c) [(PyPath.mk [] "y.cply", 5)]
    (PyPath.mk [] "y.cply") (PyPath.mk [] "out.ply") 5
    (by decide) (by decide)).1
